import Mathlib

/-!
Shallow embedding of the data-refresh-and-fallback pipeline of
`DataUpdateService` (src/unnamed/part_001, the automated data update
service of the OpenHealthView repository), together with proofs of the
specification's claims about it.

Modelling conventions:
* JavaScript strings handled character by character (the CSV machinery)
  are modelled as `List Char`; strings only compared or searched as a
  whole stay `String`.
* JavaScript objects used as string-keyed records are association lists
  `List (String × String)`; since a later assignment to the same key
  overwrites in JavaScript, lookup is performed on the reversed list
  (last binding wins).
* The cache directory is modelled as a function from source key to an
  optional cache entry; a JSON parse failure on read is identified with
  absence (both raise in the source and are caught by the same handler).
* Wall-clock times (`Date.now()`, ISO timestamps) are modelled as a
  single `Nat` number of milliseconds taken per run.
* Network and disk I/O are modelled as explicit environments passed to
  the functions; disk writes always succeed in the model.
-/

set_option maxRecDepth 8192

namespace OpenHealthView

/-- A parsed CSV row / domain record: a JavaScript object with string
fields, as an association list. -/
abbrev DomainRecord := List (String × String)

/-- JavaScript object property read `row[key]`: the last binding for
`key` wins, absent keys give `undefined` (`none`). -/
def rowGet (r : DomainRecord) (k : String) : Option String :=
  r.reverse.lookup k

/-- Character predicate for JavaScript `String.prototype.trim`. -/
def isWS (c : Char) : Bool := c.isWhitespace

/-- JavaScript `trim`: drop whitespace from both ends. -/
def trimChars (l : List Char) : List Char :=
  (((l.dropWhile isWS).reverse.dropWhile isWS)).reverse

/-- Auxiliary splitter on a separator character (JavaScript
`String.prototype.split` with a one-character separator). -/
def splitOnCharAux (sep : Char) : List Char → List Char → List (List Char)
  | [], cur => [cur.reverse]
  | c :: rest, cur =>
    if c = sep then cur.reverse :: splitOnCharAux sep rest []
    else splitOnCharAux sep rest (c :: cur)

/-- JavaScript `str.split(sep)` for a one-character separator. -/
def splitOnChar (sep : Char) (l : List Char) : List (List Char) :=
  splitOnCharAux sep l []

/-- `parseCSVLine` of the source (lines 143-163): walk the line keeping
an `inQuotes` flag; a double quote toggles the flag and is dropped, a
comma outside quotes ends the current field, anything else is appended
to the current field; fields are trimmed when emitted.  The accumulator
`cur` holds the current field reversed. -/
def parseCSVLineAux : List Char → List Char → Bool → List (List Char)
  | [], cur, _ => [trimChars cur.reverse]
  | c :: rest, cur, inQuotes =>
    if c = '"' then
      parseCSVLineAux rest cur (!inQuotes)
    else if c = ',' ∧ inQuotes = false then
      trimChars cur.reverse :: parseCSVLineAux rest [] inQuotes
    else
      parseCSVLineAux rest (c :: cur) inQuotes

/-- `parseCSVLine(line)` of the source. -/
def parseCSVLine (line : List Char) : List (List Char) :=
  parseCSVLineAux line [] false

/-- Specification-side count of the separators that are real field
delimiters: commas seen while the running number of double quotes read
so far is even (i.e. outside a quoted field).  The Boolean argument is
the parity of quotes seen so far (`true` = inside quotes). -/
def unquotedCommaCountAux : List Char → Bool → Nat
  | [], _ => 0
  | c :: rest, inQ =>
    if c = '"' then unquotedCommaCountAux rest (!inQ)
    else if c = ',' ∧ inQ = false then 1 + unquotedCommaCountAux rest inQ
    else unquotedCommaCountAux rest inQ

/-- Number of commas of `l` that occur outside quoted regions. -/
def unquotedCommaCount (l : List Char) : Nat :=
  unquotedCommaCountAux l false

/-- Header extraction of `parseCSV` (line 117 of the source): naive
comma split of the first non-blank line, with every double quote
removed and the result trimmed. -/
def csvHeaders (line : List Char) : List (List Char) :=
  (splitOnChar ',' line).map (fun h => trimChars (h.filter (fun c => c ≠ '"')))

/-- Lines of the CSV content that survive the source's
`content.split('\n').filter(line => line.trim())` (line 111): split on
newline, keep the lines that are non-empty after trimming. -/
def nonblankLines (content : List Char) : List (List Char) :=
  (splitOnChar '\n' content).filter (fun l => !(trimChars l).isEmpty)

/-- The row-building stage of `parseCSV` (lines 111-129): the first
non-blank line is the header; every further line is split with
`parseCSVLine` and kept only when its field count equals the header's
field count, in which case the header/value pairs form the row object.
An empty file (no non-blank line) raises in the source and the
surrounding catch returns the empty list. -/
def parseCSVRows (content : List Char) : List DomainRecord :=
  match nonblankLines content with
  | [] => []
  | hline :: rest =>
    let headers := csvHeaders hline
    rest.filterMap (fun line =>
      let values := parseCSVLine line
      if values.length = headers.length then
        some ((headers.zip values).map (fun p => (String.mk p.1, String.mk p.2)))
      else none)

/-- Prefix test on character lists (used to express JavaScript
`String.prototype.includes`). -/
def isPrefixList : List Char → List Char → Bool
  | [], _ => true
  | _ :: _, [] => false
  | a :: as, b :: bs => a = b && isPrefixList as bs

/-- Substring test on character lists: JavaScript
`hay.includes(needle)`. -/
def isSubstr : List Char → List Char → Bool
  | needle, [] => needle.isEmpty
  | needle, c :: rest => isPrefixList needle (c :: rest) || isSubstr needle rest

/-- JavaScript `v.toLowerCase().includes(pat)` for a string value `v`
and an (already lower-case) pattern `pat`. -/
def lcIncludes (v : String) (pat : List Char) : Bool :=
  isSubstr pat (v.data.map Char.toLower)

/-- JavaScript truthiness test `row[key] && ...` for a string property:
the property exists and is non-empty. -/
def jsTruthy : Option String → Bool
  | none => false
  | some s => !s.isEmpty

/-- JavaScript `a || b` for two string properties, with `undefined`
collapsed to the empty string (the spec's documented choice for absent
columns). -/
def jsOr (a b : Option String) : String :=
  if jsTruthy a then a.getD "" else b.getD ""

/-- JavaScript `a || ''`. -/
def jsOrEmpty (a : Option String) : String := jsOr a (some "")

/-- Projection of a raw row to a facility record
(`cahFacilities` branch of `filterDataByType`, lines 174-181). -/
def cahProject (row : DomainRecord) : DomainRecord :=
  [("provider_name", jsOr (rowGet row "Provider Name") (rowGet row "Facility Name")),
   ("state_abbr", jsOr (rowGet row "State") (rowGet row "State Code")),
   ("county_name", jsOr (rowGet row "County") (rowGet row "County Name")),
   ("address", jsOrEmpty (rowGet row "Address")),
   ("city", jsOrEmpty (rowGet row "City")),
   ("zip", jsOr (rowGet row "ZIP") (rowGet row "Zip Code"))]

/-- Projection of a raw row to a clinic record
(`ruralClinics` branch, lines 188-193). -/
def clinicProject (row : DomainRecord) : DomainRecord :=
  [("facility_name", jsOr (rowGet row "Provider Name") (rowGet row "Facility Name")),
   ("state_abbr", jsOr (rowGet row "State") (rowGet row "State Code")),
   ("county_name", jsOr (rowGet row "County") (rowGet row "County Name")),
   ("rural_status", "Rural")]

/-- Projection of a raw row to a shortage-area record
(`shortageAreas` branch, lines 199-204). -/
def shortageProject (row : DomainRecord) : DomainRecord :=
  [("hpsa_name", jsOr (rowGet row "HPSA Name") (rowGet row "Area Name")),
   ("state_abbr", jsOr (rowGet row "State") (rowGet row "State Abbreviation")),
   ("designation_type", jsOr (rowGet row "Designation Type") (some "Primary Care")),
   ("rural_status", jsOr (rowGet row "Rural Status") (some "Rural"))]

/-- `filterDataByType` of the source (lines 168-209), with the filter
predicates written exactly as in the source: a truthiness guard on the
column followed by `toLowerCase().includes(...)`. -/
def filterDataByType (data : List DomainRecord) (dataType : String) :
    List DomainRecord :=
  if dataType = "cahFacilities" then
    (data.filter (fun row =>
      jsTruthy (rowGet row "Provider Type") &&
      lcIncludes ((rowGet row "Provider Type").getD "")
        "critical access".data)).map cahProject
  else if dataType = "ruralClinics" then
    (data.filter (fun row =>
      jsTruthy (rowGet row "Provider Type") &&
      (lcIncludes ((rowGet row "Provider Type").getD "") "rural".data ||
       lcIncludes ((rowGet row "Provider Type").getD "") "clinic".data))).map
      clinicProject
  else if dataType = "shortageAreas" then
    (data.filter (fun row =>
      jsTruthy (rowGet row "Rural Status") &&
      lcIncludes ((rowGet row "Rural Status").getD "") "rural".data)).map
      shortageProject
  else data

/-- Specification-side predicate: the row's `Provider Type` column
case-insensitively contains "critical access" (an absent column
contains nothing). -/
def specKeepsCah (row : DomainRecord) : Bool :=
  match rowGet row "Provider Type" with
  | none => false
  | some v => lcIncludes v "critical access".data

/-- Specification-side predicate: the row's `Provider Type` column
case-insensitively contains "rural" or "clinic". -/
def specKeepsClinic (row : DomainRecord) : Bool :=
  match rowGet row "Provider Type" with
  | none => false
  | some v => lcIncludes v "rural".data || lcIncludes v "clinic".data

/-- Specification-side predicate: the row's `Rural Status` column
case-insensitively contains "rural". -/
def specKeepsShortage (row : DomainRecord) : Bool :=
  match rowGet row "Rural Status" with
  | none => false
  | some v => lcIncludes v "rural".data

/-- `parseCSV` of the source (lines 108-138): build the rows, then hand
them to `filterDataByType`.  (On an empty file the source's catch
returns `[]` before filtering; filtering the empty row list gives the
same result.) -/
def parseCSV (content : List Char) (dataType : String) : List DomainRecord :=
  filterDataByType (parseCSVRows content) dataType

/-- Region codes cycled through by the `cahFacilities` fallback
(line 304). -/
def cahStates : List String :=
  ["MT", "WY", "ND", "SD", "NE", "KS", "OK", "TX", "AK", "NM"]

/-- Region codes cycled through by the `ruralClinics` and
`shortageAreas` fallbacks (lines 309 and 314). -/
def rcStates : List String :=
  ["TX", "CA", "MT", "WY", "ND", "SD", "NE", "KS", "OK", "AK"]

/-- Designation types cycled through by the `shortageAreas` fallback
(line 315). -/
def desigTypes : List String :=
  ["Primary Care", "Dental Health", "Mental Health"]

/-- The `i`-th synthetic critical-access-hospital record
(lines 302-306). -/
def cahFallbackRecord (i : Nat) : DomainRecord :=
  [("provider_name", "Critical Access Hospital " ++ Nat.repr (i + 1)),
   ("state_abbr", cahStates.getD (i % 10) ""),
   ("county_name", "Rural County " ++ Nat.repr (i / 10 + 1))]

/-- The `i`-th synthetic rural-health-clinic record (lines 307-311). -/
def rcFallbackRecord (i : Nat) : DomainRecord :=
  [("facility_name", "Rural Health Clinic " ++ Nat.repr (i + 1)),
   ("state_abbr", rcStates.getD (i % 10) ""),
   ("rural_status", "Rural")]

/-- The `i`-th synthetic shortage-area record (lines 312-316). -/
def saFallbackRecord (i : Nat) : DomainRecord :=
  [("hpsa_name", "Health Professional Shortage Area " ++ Nat.repr (i + 1)),
   ("state_abbr", rcStates.getD (i % 10) ""),
   ("designation_type", desigTypes.getD (i % 3) "")]

/-- `getFallbackData` of the source (lines 300-321): fixed-cardinality
synthetic datasets for the three known source keys, the empty list for
anything else (`fallbacks[dataType] || []`). -/
def getFallbackData (dataType : String) : List DomainRecord :=
  if dataType = "cahFacilities" then (List.range 1320).map cahFallbackRecord
  else if dataType = "ruralClinics" then (List.range 4400).map rcFallbackRecord
  else if dataType = "shortageAreas" then (List.range 7800).map saFallbackRecord
  else []

/-- A persisted cache entry (`{key}.json`, lines 232-237). -/
structure CacheEntry where
  data : List DomainRecord
  lastUpdated : Nat
  source : String
  count : Nat
deriving Repr, DecidableEq

/-- The cache directory: one optional entry per source key.  An entry
that fails to deserialize is identified with an absent one (both throw
on read and hit the same catch). -/
abbrev CacheDir := String → Option CacheEntry

/-- The cache entry written on a successful refresh of a source
(lines 232-237): the parsed data, the write time, the source URL, and
`count` set to the length of the data. -/
def mkCacheEntry (data : List DomainRecord) (url : String) (now : Nat) :
    CacheEntry :=
  { data := data, lastUpdated := now, source := url, count := data.length }

/-- Writing `{key}.json` (line 232): replace the entry for `key`,
leave every other key alone. -/
def writeCacheEntry (cache : CacheDir) (key : String)
    (data : List DomainRecord) (url : String) (now : Nat) : CacheDir :=
  fun k => if k = key then some (mkCacheEntry data url now) else cache k

/-- Maximum cache age tolerated before the staleness warning
(line 283): 48 hours in milliseconds. -/
def maxCacheAge : Nat := 48 * 60 * 60 * 1000

/-- `getCachedData` of the source (lines 275-295): read and parse the
entry for the key; on success return its `data` field (the staleness
comparison on line 285 only logs a warning, reflected here by an `if`
with identical branches); on any read failure return the fallback
dataset. -/
def getCachedData (cache : CacheDir) (now : Nat) (dataType : String) :
    List DomainRecord :=
  match cache dataType with
  | some cached =>
    if now - cached.lastUpdated > maxCacheAge then cached.data else cached.data
  | none => getFallbackData dataType

/-- A registry entry of `getDataSources` (lines 41-62). -/
structure SourceDef where
  name : String
  url : String
  fileName : String
deriving Repr, DecidableEq

/-- The registered sources (lines 41-62), in iteration order. -/
def dataSources : List (String × SourceDef) :=
  [("cahFacilities",
    { name := "Critical Access Hospitals",
      url := "https://data.cms.gov/provider-data/sites/default/files/resources/092256becd267d9eecca2990b6a7aa87_1725465031/Provider_of_Services_File_-_Other_-_CSV.csv",
      fileName := "cah-facilities.csv" }),
   ("ruralClinics",
    { name := "Rural Health Clinics",
      url := "https://data.cms.gov/provider-data/sites/default/files/resources/9a38661c7b8957b25a479f3b7b86c5eb_1725465031/Provider_of_Services_File_-_Clinic_-_CSV.csv",
      fileName := "rural-clinics.csv" }),
   ("shortageAreas",
    { name := "Health Professional Shortage Areas",
      url := "https://data.hrsa.gov/DataDownload/HPSA/HPSA_Primary_Care.csv",
      fileName := "hpsa-primary-care.csv" })]

/-- One slot of `RefreshSummary.results` (lines 239-243 and 252-256). -/
inductive SlotResult where
  | success (count : Nat) (lastUpdated : Nat)
  | failure (error : String) (lastAttempt : Nat)
deriving Repr, DecidableEq

/-- The update summary written after every run
(`update-summary.json`, lines 261-266). -/
structure RefreshSummary where
  lastUpdateAttempt : Nat
  results : List (String × SlotResult)
  nextUpdate : Nat
deriving Repr, DecidableEq

/-- The refresh interval (`this.updateInterval`, line 17): 24 hours in
milliseconds. -/
def updateInterval : Nat := 24 * 60 * 60 * 1000

/-- State touched by an orchestration run: the per-source cache entries
and the update summary. -/
structure SysState where
  cache : CacheDir
  summary : Option RefreshSummary

/-- The download environment seen by one run: for each URL either the
downloaded file content or the error message the download rejects with
(HTTP failure or transport failure, lines 79-101). -/
abbrev DownloadEnv := String → Except String (List Char)

/-- The per-source body of `updateAllData`'s loop (lines 220-257):
download, parse-and-filter, and either write the cache entry and record
success (when at least one record survived) or record failure with the
error message, the cache untouched.  Returns the optional entry to
write and the source's result slot. -/
def processSource (download : DownloadEnv) (now : Nat) (key : String)
    (src : SourceDef) : Option CacheEntry × SlotResult :=
  match download src.url with
  | .error e => (none, .failure e now)
  | .ok content =>
    let parsedData := parseCSV content key
    if parsedData.length > 0 then
      (some (mkCacheEntry parsedData src.url now), .success parsedData.length now)
    else
      (none, .failure "No valid data found after parsing" now)

/-- Perform the cache write of one loop iteration, if any: a successful
source replaces its own entry, a failed one leaves the cache alone. -/
def applyWrite (st : SysState) (key : String) : Option CacheEntry → SysState
  | some e =>
    { st with cache := fun k => if k = key then some e else st.cache k }
  | none => st

/-- One fold step of the orchestration loop: apply `processSource`,
perform its cache write if any, and append the result slot. -/
def updateStep (download : DownloadEnv) (now : Nat)
    (acc : SysState × List (String × SlotResult)) (p : String × SourceDef) :
    SysState × List (String × SlotResult) :=
  (applyWrite acc.1 p.1 (processSource download now p.1 p.2).1,
   acc.2 ++ [(p.1, (processSource download now p.1 p.2).2)])

/-- `updateAllData` of the source (lines 214-270) over an explicit
source list: process every source in order, then write the update
summary unconditionally with `nextUpdate = now + updateInterval`.
Returns the final state and the `results` object. -/
def updateAllData (download : DownloadEnv) (now : Nat)
    (sources : List (String × SourceDef)) (st : SysState) :
    SysState × List (String × SlotResult) :=
  let out := sources.foldl (updateStep download now) (st, [])
  ({ out.1 with
      summary := some
        { lastUpdateAttempt := now, results := out.2,
          nextUpdate := now + updateInterval } },
   out.2)

/-- An HTTPS response as `downloadFile` inspects it (lines 72-84):
status code, status message, optional `Location` header, body. -/
structure HttpResponse where
  statusCode : Nat
  statusMessage : String
  location : Option String
  body : List Char
deriving Repr, DecidableEq

/-- The network environment: the response each URL currently yields. -/
abbrev NetEnv := String → HttpResponse

/-- Caller-visible settlement of the promise returned by
`downloadFile`: `resolved` when `resolve(localPath)` is called,
`rejected` when `reject(...)` is called, and `pending` when neither is
ever called on the promise the caller awaits. -/
inductive PromiseOutcome where
  | resolved
  | rejected (msg : String)
  | pending
deriving Repr, DecidableEq

/-- `downloadFile` of the source (lines 67-103).  The first component
is the settlement of the promise the caller awaits, the second the
content that ends up written to the local path, if any.  On a 3xx
status with a truthy `Location` header (lines 74-77) the source does
`return this.downloadFile(location, localPath)` inside the `https.get`
callback: the recursive call runs — its disk write happens, modelled by
propagating the inner write component — but its promise is discarded
and the outer promise's `resolve`/`reject` are never invoked, so the
outer settlement is `pending`.  On any other non-200 status the outer
promise is rejected with `HTTP <code>: <message>` and nothing is piped;
on 200 the body is piped to the file and the promise resolves.  The
source recursion has no depth bound; the `fuel` argument only truncates
non-terminating redirect chains (at the cutoff nothing settles and
nothing is written) and is never consumed on a terminating chain. -/
def downloadFile (net : NetEnv) :
    Nat → String → PromiseOutcome × Option (List Char)
  | 0, _ => (.pending, none)
  | fuel + 1, url =>
    if 300 ≤ (net url).statusCode ∧ (net url).statusCode < 400 ∧
        jsTruthy (net url).location then
      (.pending, (downloadFile net fuel ((net url).location.getD "")).2)
    else if (net url).statusCode ≠ 200 then
      (.rejected ("HTTP " ++ Nat.repr (net url).statusCode ++ ": " ++
        (net url).statusMessage), none)
    else (.resolved, some (net url).body)

/-- Specification-side check used to state the provenance claim: some
component of a delivered read result is a provenance indicator — a
field named `source`, or a field whose value is one of the tags
`automated`, `fallback`, `stale-cache`. -/
def resultMentionsProvenance (r : List DomainRecord) : Bool :=
  r.any (fun rec => rec.any (fun kv =>
    kv.1 = "source" || kv.2 = "automated" || kv.2 = "fallback" ||
    kv.2 = "stale-cache"))

/-- A one-entry cache directory used as a concrete read scenario. -/
def sampleCache : CacheDir :=
  fun k =>
    if k = "cahFacilities" then
      some { data := [[("provider_name", "X")]], lastUpdated := 0,
             source := "u", count := 1 }
    else none

/-- The empty cache directory. -/
def emptyCache : CacheDir := fun _ => none

/-- The initial system state (no cache entries, no summary). -/
def initialState : SysState := { cache := emptyCache, summary := none }

/-- Three-source scenario of the specification: the second source's
download fails with a 404, the other two succeed. -/
def scenarioSources : List (String × SourceDef) :=
  [("cahFacilities",
    { name := "Critical Access Hospitals", url := "https://one.example/a.csv",
      fileName := "a.csv" }),
   ("ruralClinics",
    { name := "Rural Health Clinics", url := "https://two.example/b.csv",
      fileName := "b.csv" }),
   ("shortageAreas",
    { name := "Health Professional Shortage Areas",
      url := "https://three.example/c.csv", fileName := "c.csv" })]

/-- CSV content that filters to one record for `cahFacilities`. -/
def scenarioCsvCah : List Char :=
  "Provider Type,Provider Name\nCritical Access Hospital,X".data

/-- CSV content that filters to one record for `shortageAreas`. -/
def scenarioCsvSa : List Char :=
  "Rural Status,HPSA Name\nRural,Area One".data

/-- Download environment of the three-source scenario: source 2's URL
rejects with a 404 error, sources 1 and 3 deliver usable CSV bodies. -/
def scenarioDownload : DownloadEnv := fun url =>
  if url = "https://one.example/a.csv" then .ok scenarioCsvCah
  else if url = "https://two.example/b.csv" then .error "HTTP 404: Not Found"
  else if url = "https://three.example/c.csv" then .ok scenarioCsvSa
  else .error "unknown url"

/-- Network of the redirect scenario: the old URL answers 302 with a
`Location` header, the new URL serves the file with a 200. -/
def scenarioNet : NetEnv := fun url =>
  if url = "https://old.example/file.csv" then
    { statusCode := 302, statusMessage := "Found",
      location := some "https://new.example/file.csv", body := [] }
  else if url = "https://new.example/file.csv" then
    { statusCode := 200, statusMessage := "OK", location := none,
      body := scenarioCsvCah }
  else
    { statusCode := 404, statusMessage := "Not Found", location := none,
      body := [] }

/-- The two-row filter scenario of the specification. -/
def scenarioFilterRows : List DomainRecord :=
  [[("Provider Type", "Critical Access Hospital"), ("Provider Name", "X")],
   [("Provider Type", "General"), ("Provider Name", "Y")]]

/-! ### Lemmas about the CSV line splitter -/

/-- `trimChars` only removes characters. -/
theorem trimChars_sublist (l : List Char) : List.Sublist (trimChars l) l := by
  have h1 : List.Sublist (l.dropWhile isWS) l := List.dropWhile_sublist isWS
  have h2 : List.Sublist ((l.dropWhile isWS).reverse.dropWhile isWS)
      (l.dropWhile isWS).reverse := List.dropWhile_sublist isWS
  have h3 := h2.reverse
  rw [List.reverse_reverse] at h3
  exact h3.trans h1

/-- Membership in a trimmed list implies membership in the original. -/
theorem mem_of_mem_trimChars {c : Char} {l : List Char} (h : c ∈ trimChars l) :
    c ∈ l := (trimChars_sublist l).subset h

/-- Every field emitted by the splitter is quote-free, provided the
current accumulator is quote-free: the double quote character is never
appended to a field. -/
theorem parseCSVLineAux_no_quote (line : List Char) :
    ∀ (cur : List Char) (q : Bool), '"' ∉ cur →
      ∀ v ∈ parseCSVLineAux line cur q, '"' ∉ v := by
  induction line with
  | nil =>
    intro cur q hcur v hv
    simp only [parseCSVLineAux, List.mem_singleton] at hv
    subst hv
    intro hc
    exact hcur (by simpa using mem_of_mem_trimChars hc)
  | cons c rest ih =>
    intro cur q hcur v hv
    by_cases hq : c = '"'
    · rw [parseCSVLineAux, if_pos hq] at hv
      exact ih cur (!q) hcur v hv
    · by_cases hc : c = ',' ∧ q = false
      · rw [parseCSVLineAux, if_neg hq, if_pos hc] at hv
        rcases List.mem_cons.mp hv with h | h
        · subst h
          intro hmem
          exact hcur (by simpa using mem_of_mem_trimChars hmem)
        · exact ih [] q (by simp) v h
      · rw [parseCSVLineAux, if_neg hq, if_neg hc] at hv
        refine ih (c :: cur) q ?_ v hv
        intro hmem
        rcases List.mem_cons.mp hmem with h | h
        · exact hq h.symm
        · exact hcur h

/-- The splitter emits exactly one more field than there are unquoted
commas left in the input. -/
theorem parseCSVLineAux_length (line : List Char) :
    ∀ (cur : List Char) (q : Bool),
      (parseCSVLineAux line cur q).length = 1 + unquotedCommaCountAux line q := by
  induction line with
  | nil => intro cur q; simp [parseCSVLineAux, unquotedCommaCountAux]
  | cons c rest ih =>
    intro cur q
    by_cases hq : c = '"'
    · rw [parseCSVLineAux, if_pos hq, unquotedCommaCountAux, if_pos hq]
      exact ih cur (!q)
    · by_cases hc : c = ',' ∧ q = false
      · rw [parseCSVLineAux, if_neg hq, if_pos hc, unquotedCommaCountAux,
          if_neg hq, if_pos hc]
        simp [ih [] q]
        omega
      · rw [parseCSVLineAux, if_neg hq, if_neg hc, unquotedCommaCountAux,
          if_neg hq, if_neg hc]
        exact ih (c :: cur) q

/-- C5: the CSV line splitter treats a double quote as a toggle for the
inside-quoted-field state — a comma inside quotes is not a field
delimiter (the field count is one more than the number of commas
occurring at even quote parity) — and quote characters are stripped
from every output field value. -/
theorem C5_parseCSVLine_quotes (line : List Char) :
    (∀ v ∈ parseCSVLine line, '"' ∉ v) ∧
    (parseCSVLine line).length = 1 + unquotedCommaCount line :=
  ⟨parseCSVLineAux_no_quote line [] false (by simp),
   parseCSVLineAux_length line [] false⟩

/-- Witness for C5 on the line `a,"b,c",d`: the quoted field keeps its
embedded comma as one field (three fields, two unquoted commas) and the
emitted field `b,c` is quote-free. -/
theorem C5_parseCSVLine_quotes_witness :
    ('"' ∉ ['b', ',', 'c']) ∧
    (parseCSVLine ['a', ',', '"', 'b', ',', 'c', '"', ',', 'd']).length
      = 1 + unquotedCommaCount ['a', ',', '"', 'b', ',', 'c', '"', ',', 'd'] :=
  ⟨(C5_parseCSVLine_quotes ['a', ',', '"', 'b', ',', 'c', '"', ',', 'd']).1
     ['b', ',', 'c'] (by decide),
   (C5_parseCSVLine_quotes ['a', ',', '"', 'b', ',', 'c', '"', ',', 'd']).2⟩

/-! ### Lemmas about the row-building stage -/

/-- A `filterMap` whose function succeeds on every element preserves
the length. -/
theorem length_filterMap_of_all_some {α β : Type} (f : α → Option β)
    (l : List α) (h : ∀ a ∈ l, (f a).isSome = true) :
    (l.filterMap f).length = l.length := by
  induction l with
  | nil => simp
  | cons a as ih =>
    have ha := h a (List.mem_cons_self a as)
    rcases Option.isSome_iff_exists.mp ha with ⟨b, hb⟩
    rw [List.filterMap_cons, hb]
    simp only [List.length_cons]
    rw [ih (fun x hx => h x (List.mem_cons_of_mem a hx))]

/-- C4: with a header of `H` fields, every data line splitting into
exactly `H` fields yields a row with exactly `H` header/value pairs and
no line is lost (output length `= N`); a line splitting into a
different field count is silently dropped, so the output length never
exceeds the number of data lines. -/
theorem C4_parseCSVRows_counts (content : List Char) (hline : List Char)
    (rest : List (List Char))
    (h : nonblankLines content = hline :: rest) :
    ((∀ l ∈ rest, (parseCSVLine l).length = (csvHeaders hline).length) →
      (parseCSVRows content).length = rest.length) ∧
    (∀ r ∈ parseCSVRows content, r.length = (csvHeaders hline).length) ∧
    (parseCSVRows content).length ≤ rest.length := by
  have hrows : parseCSVRows content =
      rest.filterMap (fun line =>
        if (parseCSVLine line).length = (csvHeaders hline).length then
          some (((csvHeaders hline).zip (parseCSVLine line)).map
            (fun p => (String.mk p.1, String.mk p.2)))
        else none) := by
    rw [parseCSVRows, h]
  refine ⟨?_, ?_, ?_⟩
  · intro hall
    rw [hrows]
    apply length_filterMap_of_all_some
    intro l hl
    show (if (parseCSVLine l).length = (csvHeaders hline).length then
        some (((csvHeaders hline).zip (parseCSVLine l)).map
          (fun p => (String.mk p.1, String.mk p.2)))
      else none).isSome = true
    rw [if_pos (hall l hl)]
    rfl
  · intro r hr
    rw [hrows] at hr
    rcases List.mem_filterMap.mp hr with ⟨line, hline', hf⟩
    by_cases hlen : (parseCSVLine line).length = (csvHeaders hline).length
    · rw [if_pos hlen] at hf
      injection hf with hf'
      subst hf'
      rw [List.length_map, List.length_zip, hlen, Nat.min_self]
    · rw [if_neg hlen] at hf
      cases hf
  · rw [hrows]
    exact List.length_filterMap_le _ _

/-- Witness for C4 on the content `a,b` newline `1,2`: one data line
with a matching field count, hence exactly one row of two fields. -/
theorem C4_parseCSVRows_counts_witness :
    (parseCSVRows ['a', ',', 'b', '\n', '1', ',', '2']).length = 1 :=
  (C4_parseCSVRows_counts ['a', ',', 'b', '\n', '1', ',', '2']
      ['a', ',', 'b'] [['1', ',', '2']] (by decide)).1
    (fun l hl => by
      rcases List.mem_singleton.mp hl with rfl
      decide)

/-! ### Lemmas about the type-specific filter -/

/-- The empty string contains no non-empty pattern. -/
theorem lcIncludes_empty (pat : List Char) (h : pat ≠ []) :
    lcIncludes "" pat = false := by
  have hd : ("" : String).data.map Char.toLower = [] := rfl
  rw [lcIncludes, hd]
  cases pat with
  | nil => exact absurd rfl h
  | cons c cs => rfl

/-- An empty string value is exactly one whose character list is
empty. -/
theorem isEmpty_iff_data {s : String} : s.isEmpty = true ↔ s.data = [] := by
  rw [String.isEmpty_iff]
  constructor
  · intro h; rw [h]
  · intro h
    cases s with
    | mk data => cases h; rfl

/-- The source's guarded predicate on `cahFacilities` rows agrees with
the specification predicate: the truthiness guard only rules out rows
whose column is absent or empty, and an empty column cannot contain the
non-empty pattern anyway. -/
theorem codeKeep_eq_specKeepsCah (row : DomainRecord) :
    (jsTruthy (rowGet row "Provider Type") &&
      lcIncludes ((rowGet row "Provider Type").getD "")
        "critical access".data) = specKeepsCah row := by
  rw [specKeepsCah]
  cases h : rowGet row "Provider Type" with
  | none => rfl
  | some v =>
    rw [jsTruthy, Option.getD_some]
    cases hv : v.isEmpty with
    | true =>
      have hd : v.data = [] := isEmpty_iff_data.mp hv
      have hv' : v = "" := by cases v with | mk data => cases hd; rfl
      subst hv'
      rw [lcIncludes_empty _ (by decide)]
      rfl
    | false => rfl

/-- The source's guarded predicate on `ruralClinics` rows agrees with
the specification predicate. -/
theorem codeKeep_eq_specKeepsClinic (row : DomainRecord) :
    (jsTruthy (rowGet row "Provider Type") &&
      (lcIncludes ((rowGet row "Provider Type").getD "") "rural".data ||
       lcIncludes ((rowGet row "Provider Type").getD "") "clinic".data)) =
    specKeepsClinic row := by
  rw [specKeepsClinic]
  cases h : rowGet row "Provider Type" with
  | none => rfl
  | some v =>
    rw [jsTruthy, Option.getD_some]
    cases hv : v.isEmpty with
    | true =>
      have hd : v.data = [] := isEmpty_iff_data.mp hv
      have hv' : v = "" := by cases v with | mk data => cases hd; rfl
      subst hv'
      rw [lcIncludes_empty _ (by decide), lcIncludes_empty _ (by decide)]
      rfl
    | false => rfl

/-- The source's guarded predicate on `shortageAreas` rows agrees with
the specification predicate. -/
theorem codeKeep_eq_specKeepsShortage (row : DomainRecord) :
    (jsTruthy (rowGet row "Rural Status") &&
      lcIncludes ((rowGet row "Rural Status").getD "") "rural".data) =
    specKeepsShortage row := by
  rw [specKeepsShortage]
  cases h : rowGet row "Rural Status" with
  | none => rfl
  | some v =>
    rw [jsTruthy, Option.getD_some]
    cases hv : v.isEmpty with
    | true =>
      have hd : v.data = [] := isEmpty_iff_data.mp hv
      have hv' : v = "" := by cases v with | mk data => cases hd; rfl
      subst hv'
      rw [lcIncludes_empty _ (by decide)]
      rfl
    | false => rfl

/-- C6: the filter keeps, for `cahFacilities`, exactly the rows whose
`Provider Type` case-insensitively contains "critical access"; for
`ruralClinics`, the rows whose `Provider Type` contains "rural" or
"clinic"; for `shortageAreas`, the rows whose `Rural Status` contains
"rural"; and it returns the rows unchanged for any unrecognized source
key. -/
theorem C6_filterDataByType_spec (rows : List DomainRecord) :
    filterDataByType rows "cahFacilities" =
      (rows.filter specKeepsCah).map cahProject ∧
    filterDataByType rows "ruralClinics" =
      (rows.filter specKeepsClinic).map clinicProject ∧
    filterDataByType rows "shortageAreas" =
      (rows.filter specKeepsShortage).map shortageProject ∧
    ∀ key : String,
      key ∉ (["cahFacilities", "ruralClinics", "shortageAreas"] : List String) →
      filterDataByType rows key = rows := by
  refine ⟨?_, ?_, ?_, ?_⟩
  · rw [filterDataByType, if_pos rfl,
      List.filter_congr (fun row _ => codeKeep_eq_specKeepsCah row)]
  · rw [filterDataByType, if_neg (by decide), if_pos rfl,
      List.filter_congr (fun row _ => codeKeep_eq_specKeepsClinic row)]
  · rw [filterDataByType, if_neg (by decide), if_neg (by decide), if_pos rfl,
      List.filter_congr (fun row _ => codeKeep_eq_specKeepsShortage row)]
  · intro key hkey
    simp only [List.mem_cons, List.mem_singleton, not_or] at hkey
    rw [filterDataByType, if_neg hkey.1, if_neg hkey.2.1, if_neg hkey.2.2.1]

/-- Witness for C6 on the specification's two-row scenario: an unknown
key passes the rows through unchanged, and `cahFacilities` keeps
exactly the "Critical Access Hospital" row, projected to a record for
"X". -/
theorem C6_filterDataByType_spec_witness :
    filterDataByType scenarioFilterRows "somethingElse" = scenarioFilterRows ∧
    filterDataByType scenarioFilterRows "cahFacilities" =
      (scenarioFilterRows.filter specKeepsCah).map cahProject ∧
    (scenarioFilterRows.filter specKeepsCah).length = 1 ∧
    rowGet (((scenarioFilterRows.filter specKeepsCah).map cahProject).getD 0 [])
      "provider_name" = some "X" :=
  ⟨(C6_filterDataByType_spec scenarioFilterRows).2.2.2 "somethingElse" (by decide),
   (C6_filterDataByType_spec scenarioFilterRows).1,
   by decide, by decide⟩

/-! ### Lemmas about the fallback generator -/

/-- C3: the fallback generator returns exactly 1320 / 4400 / 7800
synthetic records for the three known source keys, each record's region
code cycling through the fixed ten-element state lists, and two
invocations with the same key return equal outputs. -/
theorem C3_getFallbackData_deterministic :
    (getFallbackData "cahFacilities").length = 1320 ∧
    (getFallbackData "ruralClinics").length = 4400 ∧
    (getFallbackData "shortageAreas").length = 7800 ∧
    (∀ i, i < 1320 → ∃ r, (getFallbackData "cahFacilities")[i]? = some r ∧
      rowGet r "state_abbr" = cahStates[i % 10]?) ∧
    (∀ i, i < 4400 → ∃ r, (getFallbackData "ruralClinics")[i]? = some r ∧
      rowGet r "state_abbr" = rcStates[i % 10]?) ∧
    (∀ i, i < 7800 → ∃ r, (getFallbackData "shortageAreas")[i]? = some r ∧
      rowGet r "state_abbr" = rcStates[i % 10]?) ∧
    ∀ key : String, getFallbackData key = getFallbackData key := by
  have hcah : getFallbackData "cahFacilities" =
      (List.range 1320).map cahFallbackRecord := by
    rw [getFallbackData, if_pos rfl]
  have hrc : getFallbackData "ruralClinics" =
      (List.range 4400).map rcFallbackRecord := by
    rw [getFallbackData, if_neg (by decide), if_pos rfl]
  have hsa : getFallbackData "shortageAreas" =
      (List.range 7800).map saFallbackRecord := by
    rw [getFallbackData, if_neg (by decide), if_neg (by decide), if_pos rfl]
  refine ⟨by rw [hcah]; simp, by rw [hrc]; simp, by rw [hsa]; simp,
    ?_, ?_, ?_, fun _ => rfl⟩
  · intro i hi
    refine ⟨cahFallbackRecord i, ?_, ?_⟩
    · rw [hcah, List.getElem?_map, List.getElem?_range hi]
      rfl
    · have h10 : i % 10 < cahStates.length := Nat.mod_lt i (by decide)
      rw [List.getElem?_eq_getElem h10]
      show some (cahStates.getD (i % 10) "") = _
      rw [List.getD_eq_getElem cahStates "" h10]
  · intro i hi
    refine ⟨rcFallbackRecord i, ?_, ?_⟩
    · rw [hrc, List.getElem?_map, List.getElem?_range hi]
      rfl
    · have h10 : i % 10 < rcStates.length := Nat.mod_lt i (by decide)
      rw [List.getElem?_eq_getElem h10]
      show some (rcStates.getD (i % 10) "") = _
      rw [List.getD_eq_getElem rcStates "" h10]
  · intro i hi
    refine ⟨saFallbackRecord i, ?_, ?_⟩
    · rw [hsa, List.getElem?_map, List.getElem?_range hi]
      rfl
    · have h10 : i % 10 < rcStates.length := Nat.mod_lt i (by decide)
      rw [List.getElem?_eq_getElem h10]
      show some (rcStates.getD (i % 10) "") = _
      rw [List.getD_eq_getElem rcStates "" h10]

/-- Witness for C3 at index 12 of the `cahFacilities` fallback: the
region code is the third state of the cycle. -/
theorem C3_getFallbackData_deterministic_witness :
    ∃ r, (getFallbackData "cahFacilities")[12]? = some r ∧
      rowGet r "state_abbr" = cahStates[12 % 10]? :=
  C3_getFallbackData_deterministic.2.2.2.1 12 (by decide)

/-! ### Lemmas about the read path and the cache store -/

/-- C2: a read never fails outwardly — an absent (or undeserializable)
entry yields the fallback dataset — and a present entry's data is
returned even when arbitrarily stale; fallback synthesis happens only
on a failed read, never for mere staleness. -/
theorem C2_getCachedData_never_fails (cache : CacheDir) (now : Nat)
    (key : String) :
    (cache key = none → getCachedData cache now key = getFallbackData key) ∧
    (∀ e, cache key = some e → getCachedData cache now key = e.data) ∧
    (∀ e, cache key = some e → now - e.lastUpdated > maxCacheAge →
      getCachedData cache now key = e.data) := by
  refine ⟨?_, ?_, ?_⟩
  · intro h
    rw [getCachedData, h]
  · intro e he
    rw [getCachedData, he]
    exact ite_self e.data
  · intro e he _
    rw [getCachedData, he]
    exact ite_self e.data

/-- Witness for C2: a missing entry falls back to the synthetic
dataset, and a 999999999-millisecond-old entry (far beyond the 48-hour
tolerance) still returns its cached data, not the fallback. -/
theorem C2_getCachedData_never_fails_witness :
    getCachedData emptyCache 0 "cahFacilities" =
      getFallbackData "cahFacilities" ∧
    getCachedData sampleCache 999999999 "cahFacilities" =
      [[("provider_name", "X")]] :=
  ⟨(C2_getCachedData_never_fails emptyCache 0 "cahFacilities").1 rfl,
   (C2_getCachedData_never_fails sampleCache 999999999 "cahFacilities").2.2
     { data := [[("provider_name", "X")]], lastUpdated := 0, source := "u",
       count := 1 } rfl (by decide)⟩

/-- C8: writing a cache entry for a key and reading that key back
yields the identical data sequence, and the persisted entry satisfies
`count = data.length` with `lastUpdated` set to the write time. -/
theorem C8_cache_roundtrip (cache : CacheDir) (key url : String)
    (data : List DomainRecord) (now tRead : Nat) :
    getCachedData (writeCacheEntry cache key data url now) tRead key = data ∧
    writeCacheEntry cache key data url now key =
      some (mkCacheEntry data url now) ∧
    (mkCacheEntry data url now).count = (mkCacheEntry data url now).data.length ∧
    (mkCacheEntry data url now).lastUpdated = now := by
  have hw : writeCacheEntry cache key data url now key =
      some (mkCacheEntry data url now) := by
    rw [writeCacheEntry, if_pos rfl]
  refine ⟨?_, hw, rfl, rfl⟩
  rw [getCachedData, hw]
  exact ite_self data

/-- C9 counterexample: a concrete read result (a cache hit on a
one-record entry) contains no provenance indicator at all — no field
named `source` and no value equal to `automated`, `fallback`, or
`stale-cache` — refuting the claim that every read result carries such
an indicator. -/
theorem C9_no_provenance_counterexample :
    resultMentionsProvenance (getCachedData sampleCache 0 "cahFacilities") =
      false := by decide

/-- C9 amended: every read delivers only the bare dataset — the cached
entry's `data` on a hit, the synthetic fallback on a miss — with no
provenance indicator attached; in particular no fallback record has a
field named `source`. -/
theorem C9_read_results_untagged (cache : CacheDir) (now : Nat)
    (key : String) :
    ((∃ e, cache key = some e ∧ getCachedData cache now key = e.data) ∨
      (cache key = none ∧
        getCachedData cache now key = getFallbackData key)) ∧
    (∀ rec ∈ getFallbackData key, ∀ kv ∈ rec, kv.1 ≠ "source") := by
  constructor
  · cases h : cache key with
    | some e =>
      exact Or.inl ⟨e, rfl, by rw [getCachedData, h]; exact ite_self e.data⟩
    | none => exact Or.inr ⟨rfl, by rw [getCachedData, h]⟩
  · intro rec hrec kv hkv
    rw [getFallbackData] at hrec
    by_cases h1 : key = "cahFacilities"
    · rw [if_pos h1] at hrec
      rcases List.mem_map.mp hrec with ⟨i, _, rfl⟩
      simp only [cahFallbackRecord, List.mem_cons, List.mem_singleton,
        List.not_mem_nil, or_false] at hkv
      rcases hkv with rfl | rfl | rfl
      · exact (by decide : ("provider_name" : String) ≠ "source")
      · exact (by decide : ("state_abbr" : String) ≠ "source")
      · exact (by decide : ("county_name" : String) ≠ "source")
    · rw [if_neg h1] at hrec
      by_cases h2 : key = "ruralClinics"
      · rw [if_pos h2] at hrec
        rcases List.mem_map.mp hrec with ⟨i, _, rfl⟩
        simp only [rcFallbackRecord, List.mem_cons, List.mem_singleton,
          List.not_mem_nil, or_false] at hkv
        rcases hkv with rfl | rfl | rfl
        · exact (by decide : ("facility_name" : String) ≠ "source")
        · exact (by decide : ("state_abbr" : String) ≠ "source")
        · exact (by decide : ("rural_status" : String) ≠ "source")
      · rw [if_neg h2] at hrec
        by_cases h3 : key = "shortageAreas"
        · rw [if_pos h3] at hrec
          rcases List.mem_map.mp hrec with ⟨i, _, rfl⟩
          simp only [saFallbackRecord, List.mem_cons, List.mem_singleton,
            List.not_mem_nil, or_false] at hkv
          rcases hkv with rfl | rfl | rfl
          · exact (by decide : ("hpsa_name" : String) ≠ "source")
          · exact (by decide : ("state_abbr" : String) ≠ "source")
          · exact (by decide : ("designation_type" : String) ≠ "source")
        · rw [if_neg h3] at hrec
          cases hrec

/-- Witness for the amended C9: a read on an empty cache is the bare
fallback dataset, and a sample fallback field is not a provenance
field. -/
theorem C9_read_results_untagged_witness :
    ((∃ e, emptyCache "cahFacilities" = some e ∧
        getCachedData emptyCache 77 "cahFacilities" = e.data) ∨
      (emptyCache "cahFacilities" = none ∧
        getCachedData emptyCache 77 "cahFacilities" =
          getFallbackData "cahFacilities")) ∧
    (("state_abbr", "MT") : String × String).1 ≠ "source" :=
  ⟨(C9_read_results_untagged emptyCache 77 "cahFacilities").1,
   (C9_read_results_untagged emptyCache 77 "cahFacilities").2
     (cahFallbackRecord 0) (by decide) ("state_abbr", "MT") (by decide)⟩

/-! ### Lemmas about the fetcher -/

/-- C7: evaluation of the fetcher at the claim's failing input — a 302
with `Location: https://new.example/file.csv`.  The subsequent fetch to
the Location URL is issued and no HTTP-error rejection occurs (the
redirect target's body is exactly what ends up written to the local
path), but the promise the caller awaits never settles in the redirect
branch, whereas a direct request to the target resolves: the download
never completes as the claim demands, so the awaiting caller hangs. -/
theorem C7_redirect_promise_never_settles :
    (downloadFile scenarioNet 2 "https://old.example/file.csv").2 =
      some scenarioCsvCah ∧
    (downloadFile scenarioNet 2 "https://old.example/file.csv").1 =
      PromiseOutcome.pending ∧
    (downloadFile scenarioNet 1 "https://new.example/file.csv").1 =
      PromiseOutcome.resolved := by
  refine ⟨?_, ?_, ?_⟩ <;> decide

/-! ### Lemmas about the refresh orchestrator -/

/-- The fold of the orchestration loop appends, for each source in
order, exactly the result slot `processSource` computes for it — one
source's outcome never influences another's slot. -/
theorem foldl_updateStep_results (download : DownloadEnv) (now : Nat)
    (sources : List (String × SourceDef)) :
    ∀ (st : SysState) (acc : List (String × SlotResult)),
      (sources.foldl (updateStep download now) (st, acc)).2 =
        acc ++ sources.map
          (fun p => (p.1, (processSource download now p.1 p.2).2)) := by
  induction sources with
  | nil => intro st acc; simp
  | cons p ps ih =>
    intro st acc
    rw [List.foldl_cons, List.map_cons]
    show (ps.foldl (updateStep download now)
      (applyWrite st p.1 (processSource download now p.1 p.2).1,
       acc ++ [(p.1, (processSource download now p.1 p.2).2)])).2 = _
    rw [ih]
    simp

/-- A fold over sources none of whose keys is `key` leaves the cache
entry of `key` unchanged. -/
theorem foldl_updateStep_cache_not_mem (download : DownloadEnv) (now : Nat)
    (ps : List (String × SourceDef)) (key : String) :
    key ∉ ps.map Prod.fst →
    ∀ (st : SysState) (acc : List (String × SlotResult)),
      (ps.foldl (updateStep download now) (st, acc)).1.cache key =
        st.cache key := by
  induction ps with
  | nil => intro _ st acc; rfl
  | cons p ps ih =>
    intro hnot st acc
    rw [List.map_cons] at hnot
    have hne : key ≠ p.1 := by
      intro h
      apply hnot
      rw [h]
      exact List.mem_cons_self _ _
    have hnot' : key ∉ ps.map Prod.fst :=
      fun h => hnot (List.mem_cons_of_mem _ h)
    rw [List.foldl_cons]
    show (ps.foldl (updateStep download now)
      (applyWrite st p.1 (processSource download now p.1 p.2).1, _)).1.cache key = _
    rw [ih hnot']
    cases hpr : (processSource download now p.1 p.2).1 with
    | none => rfl
    | some e =>
      show (if key = p.1 then some e else st.cache key) = st.cache key
      rw [if_neg hne]

/-- With pairwise-distinct source keys, the final cache entry of a
registered source is determined by that source's own `processSource`
outcome alone: its own entry on success, the pre-existing entry on
failure. -/
theorem foldl_updateStep_cache_mem (download : DownloadEnv) (now : Nat)
    (sources : List (String × SourceDef)) (key : String) (src : SourceDef) :
    (sources.map Prod.fst).Nodup → (key, src) ∈ sources →
    ∀ (st : SysState) (acc : List (String × SlotResult)),
      (sources.foldl (updateStep download now) (st, acc)).1.cache key =
        (match (processSource download now key src).1 with
          | some e => some e
          | none => st.cache key) := by
  induction sources with
  | nil => intro _ h; cases h
  | cons p ps ih =>
    intro hnd hmem st acc
    rw [List.map_cons, List.nodup_cons] at hnd
    rw [List.foldl_cons]
    rcases List.mem_cons.mp hmem with heq | hmem'
    · have hkey : p.1 = key := by rw [← heq]
      have hsrc : p.2 = src := by rw [← heq]
      have hnot : key ∉ ps.map Prod.fst := hkey ▸ hnd.1
      show (ps.foldl (updateStep download now)
        (applyWrite st p.1 (processSource download now p.1 p.2).1, _)).1.cache key = _
      rw [foldl_updateStep_cache_not_mem download now ps key hnot]
      rw [hkey, hsrc]
      cases hpr : (processSource download now key src).1 with
      | none => rfl
      | some e =>
        show (if key = key then some e else st.cache key) = some e
        rw [if_pos rfl]
    · have hne : key ≠ p.1 := by
        intro h
        exact hnd.1 (h ▸ (List.mem_map.mpr ⟨(key, src), hmem', rfl⟩))
      show (ps.foldl (updateStep download now)
        (applyWrite st p.1 (processSource download now p.1 p.2).1, _)).1.cache key = _
      rw [ih hnd.2 hmem']
      cases hpr : (processSource download now p.1 p.2).1 with
      | none => rfl
      | some e =>
        show (match (processSource download now key src).1 with
          | some e' => some e'
          | none => (if key = p.1 then some e else st.cache key)) = _
        rw [if_neg hne]

/-- C1: one run of the orchestrator records, for every source in order,
exactly the slot its own pipeline outcome produces — a failure of one
source is recorded in its own slot and never affects another source's
slot — and afterwards the summary is written unconditionally with
`lastUpdateAttempt = now`, the collected results, and
`nextUpdate = now + updateInterval`. -/
theorem C1_updateAllData_isolation (download : DownloadEnv) (now : Nat)
    (sources : List (String × SourceDef)) (st : SysState) :
    (updateAllData download now sources st).2 =
      sources.map (fun p => (p.1, (processSource download now p.1 p.2).2)) ∧
    (updateAllData download now sources st).1.summary =
      some { lastUpdateAttempt := now,
             results := (updateAllData download now sources st).2,
             nextUpdate := now + updateInterval } := by
  constructor
  · show (sources.foldl (updateStep download now) (st, [])).2 = _
    rw [foldl_updateStep_results]
    simp
  · rfl

/-- C10: during a refresh run over distinct source keys, a source's
cache entry is written only when its pipeline yields at least one
record — the written entry then satisfies `count = data.length ≥ 1` —
and on any stage failure (including zero surviving records) the
pre-existing cache entry of that source is left unchanged; every
successful result slot carries a count of at least one. -/
theorem C10_cache_write_frame (download : DownloadEnv) (now : Nat)
    (sources : List (String × SourceDef)) (st : SysState) (key : String)
    (src : SourceDef) (hnd : (sources.map Prod.fst).Nodup)
    (hmem : (key, src) ∈ sources) :
    ((processSource download now key src).1 = none →
      (updateAllData download now sources st).1.cache key = st.cache key) ∧
    (∀ e, (processSource download now key src).1 = some e →
      (updateAllData download now sources st).1.cache key = some e ∧
      e.count = e.data.length ∧ 1 ≤ e.count) ∧
    (∀ c t, (processSource download now key src).2 = .success c t → 1 ≤ c) := by
  have hfold : (updateAllData download now sources st).1.cache key =
      (match (processSource download now key src).1 with
        | some e => some e
        | none => st.cache key) :=
    foldl_updateStep_cache_mem download now sources key src hnd hmem st []
  refine ⟨?_, ?_, ?_⟩
  · intro hnone
    rw [hfold, hnone]
  · intro e hsome
    refine ⟨by rw [hfold, hsome], ?_⟩
    rw [processSource] at hsome
    cases hdl : download src.url with
    | error msg => rw [hdl] at hsome; cases hsome
    | ok content =>
      rw [hdl] at hsome
      by_cases hlen : (parseCSV content key).length > 0
      · simp only [if_pos hlen] at hsome
        injection hsome with hsome
        subst hsome
        exact ⟨rfl, hlen⟩
      · simp only [if_neg hlen] at hsome
        cases hsome
  · intro c t hsucc
    rw [processSource] at hsucc
    cases hdl : download src.url with
    | error msg => rw [hdl] at hsucc; cases hsucc
    | ok content =>
      rw [hdl] at hsucc
      by_cases hlen : (parseCSV content key).length > 0
      · simp only [if_pos hlen] at hsucc
        injection hsucc with h1 h2
        rw [← h1]
        exact hlen
      · simp only [if_neg hlen] at hsucc
        cases hsucc

/-- Witness for C10 on the specification's three-source scenario (the
second source 404s, the others deliver one usable row each): the failed
source's cache entry stays as it was (absent), the first source's entry
is freshly written with its one parsed record, and that entry's count
is at least one. -/
theorem C10_cache_write_frame_witness :
    (updateAllData scenarioDownload 5 scenarioSources initialState).1.cache
        "ruralClinics" = initialState.cache "ruralClinics" ∧
    (updateAllData scenarioDownload 5 scenarioSources initialState).1.cache
        "cahFacilities" =
      some (mkCacheEntry (parseCSV scenarioCsvCah "cahFacilities")
        "https://one.example/a.csv" 5) ∧
    1 ≤ (mkCacheEntry (parseCSV scenarioCsvCah "cahFacilities")
        "https://one.example/a.csv" 5).count :=
  ⟨(C10_cache_write_frame scenarioDownload 5 scenarioSources initialState
      "ruralClinics"
      { name := "Rural Health Clinics", url := "https://two.example/b.csv",
        fileName := "b.csv" } (by decide) (by decide)).1 rfl,
   ((C10_cache_write_frame scenarioDownload 5 scenarioSources initialState
      "cahFacilities"
      { name := "Critical Access Hospitals", url := "https://one.example/a.csv",
        fileName := "a.csv" } (by decide) (by decide)).2.1
      (mkCacheEntry (parseCSV scenarioCsvCah "cahFacilities")
        "https://one.example/a.csv" 5) rfl).1,
   ((C10_cache_write_frame scenarioDownload 5 scenarioSources initialState
      "cahFacilities"
      { name := "Critical Access Hospitals", url := "https://one.example/a.csv",
        fileName := "a.csv" } (by decide) (by decide)).2.1
      (mkCacheEntry (parseCSV scenarioCsvCah "cahFacilities")
        "https://one.example/a.csv" 5) rfl).2.2⟩

end OpenHealthView
